import Mathlib

/-!
Shallow embedding of the brick-breaker game core (src/constants.py,
src/game.py, src/main.py) and verification of its specification.

Machine integers are modelled as `Int` (Python integers are unbounded, so no
overflow modelling is needed).  The `Direction` enum and its four methods are
translated directly from src/game.py.  `make_matrix` and `GameState.update`
are stubbed (`raise NotImplementedError`) in the source, so they are modelled
from the specification, as marked in their doc comments.
-/

namespace BrickBreaker

/-- Constants from src/constants.py. -/
def rows : Int := 50

/-- Constants from src/constants.py. -/
def columns : Int := 40

/-- Constants from src/constants.py. -/
def paddle_width : Int := 9

/-- Constants from src/constants.py. -/
def paddle_height : Int := 1

/-- Constants from src/constants.py: frames between ball updates. -/
def ball_slowness : Nat := 5

/-- Constants from src/constants.py: the brick color palette. -/
def brick_colors : List (Nat × Nat × Nat) :=
  [(158, 227, 98), (0, 192, 208), (255, 212, 3),
   (255, 147, 86), (126, 116, 212), (254, 130, 170)]

/-- Coordinate pair, `Coord = tuple[int, int]` in src/game.py. -/
abbrev Coord := Int × Int

/-- The `Direction` enum of src/game.py: the ball's six legal headings.
The ball can never move purely horizontally. -/
inductive Direction
  | UP
  | UP_RIGHT
  | DOWN_RIGHT
  | DOWN
  | DOWN_LEFT
  | UP_LEFT
deriving DecidableEq, Fintype, Repr

/-- The `is_down` method of `Direction` (src/game.py lines 41-54): true when
the direction points down. -/
def Direction.is_down (self : Direction) : Bool :=
  self == Direction.DOWN_LEFT
    || self == Direction.DOWN
    || self == Direction.DOWN_RIGHT

/-- The `delta` method of `Direction` (src/game.py lines 56-78): the change in
x and change in y associated with the direction. -/
def Direction.delta (self : Direction) : Int × Int :=
  match self with
  | Direction.UP => (0, -1)
  | Direction.UP_RIGHT => (1, -1)
  | Direction.DOWN_RIGHT => (1, 1)
  | Direction.DOWN => (0, 1)
  | Direction.DOWN_LEFT => (-1, 1)
  | Direction.UP_LEFT => (-1, -1)

/-- The `get_adjacent_coords` method of `Direction` (src/game.py lines
105-117): the three coordinates checked during a collision test, in clockwise
order (left, front, right relative to the heading). -/
def Direction.get_adjacent_coords (self : Direction) (x y : Int) :
    Coord × Coord × Coord :=
  if self == Direction.UP then
    ((x - 1, y - 1), (x, y - 1), (x + 1, y - 1))
  else if self == Direction.UP_RIGHT then
    ((x, y - 1), (x + 1, y - 1), (x + 1, y))
  else if self == Direction.DOWN_RIGHT then
    ((x + 1, y), (x + 1, y + 1), (x, y + 1))
  else if self == Direction.DOWN then
    ((x - 1, y + 1), (x, y + 1), (x + 1, y + 1))
  else if self == Direction.DOWN_LEFT then
    ((x, y + 1), (x - 1, y + 1), (x - 1, y))
  else
    ((x - 1, y), (x - 1, y - 1), (x, y - 1))

/-- The `new_direction` method of `Direction` (src/game.py lines 142-222):
the new heading given the current heading and the occupancy of the three
adjacent cells. -/
def Direction.new_direction (self : Direction)
    (on_left in_front on_right : Bool) : Direction :=
  if self == Direction.UP then
    if in_front then Direction.DOWN else Direction.UP
  else if self == Direction.UP_RIGHT then
    if on_left && in_front && on_right then Direction.DOWN_LEFT
    else if on_left && in_front && !on_right then Direction.DOWN_RIGHT
    else if on_left && !in_front && on_right then Direction.DOWN_LEFT
    else if on_left && !in_front && !on_right then Direction.DOWN_RIGHT
    else if !on_left && in_front && on_right then Direction.UP_LEFT
    else if !on_left && in_front && !on_right then Direction.DOWN_LEFT
    else if !on_left && !in_front && on_right then Direction.UP_LEFT
    else Direction.UP_RIGHT
  else if self == Direction.DOWN_RIGHT then
    if on_left && in_front && on_right then Direction.UP_LEFT
    else if on_left && in_front && !on_right then Direction.DOWN_LEFT
    else if on_left && !in_front && on_right then Direction.UP_LEFT
    else if on_left && !in_front && !on_right then Direction.DOWN_LEFT
    else if !on_left && in_front && on_right then Direction.UP_RIGHT
    else if !on_left && in_front && !on_right then Direction.UP_LEFT
    else if !on_left && !in_front && on_right then Direction.UP_RIGHT
    else Direction.DOWN_RIGHT
  else if self == Direction.DOWN then
    if in_front then Direction.UP else Direction.DOWN
  else if self == Direction.DOWN_LEFT then
    if on_left && in_front && on_right then Direction.UP_RIGHT
    else if on_left && in_front && !on_right then Direction.UP_LEFT
    else if on_left && !in_front && on_right then Direction.UP_RIGHT
    else if on_left && !in_front && !on_right then Direction.UP_LEFT
    else if !on_left && in_front && on_right then Direction.DOWN_RIGHT
    else if !on_left && in_front && !on_right then Direction.UP_RIGHT
    else if !on_left && !in_front && on_right then Direction.DOWN_RIGHT
    else Direction.DOWN_LEFT
  else
    if on_left && in_front && on_right then Direction.DOWN_RIGHT
    else if on_left && in_front && !on_right then Direction.UP_RIGHT
    else if on_left && !in_front && on_right then Direction.DOWN_RIGHT
    else if on_left && !in_front && !on_right then Direction.UP_RIGHT
    else if !on_left && in_front && on_right then Direction.DOWN_LEFT
    else if !on_left && in_front && !on_right then Direction.DOWN_RIGHT
    else if !on_left && !in_front && on_right then Direction.DOWN_LEFT
    else Direction.UP_LEFT

/-- Content of one grid cell.  The spec's data model (section 3) makes each
coordinate of the bordered range either empty, a destructible block with a
color, or a permanent border block.  In src/game.py the dict stores `Block`
values for blocks and `None` for border cells; `Cell.border` plays the role
of that `None`. -/
inductive Cell
  | empty
  | brick (color : Nat × Nat × Nat)
  | border
deriving DecidableEq

/-- The `Matrix` type of src/game.py, a dict from coordinates to cell
contents; a coordinate outside the dict's key set looks up to `none`
(a `KeyError` in Python). -/
def Matrix := Coord → Option Cell

/-- True when the cell content blocks the ball (a destructible block or a
border block). -/
def cellBlocks : Cell → Bool
  | Cell.empty => false
  | Cell.brick _ => true
  | Cell.border => true

/-- The coordinate lies in the bordered range: the playable interior plus the
one-cell border ring (spec section 3). -/
def inBorderedRange (c : Coord) : Prop :=
  -1 ≤ c.1 ∧ c.1 ≤ columns ∧ -1 ≤ c.2 ∧ c.2 ≤ rows

instance (c : Coord) : Decidable (inBorderedRange c) := by
  unfold inBorderedRange; infer_instance

/-- The coordinate lies on the outer border ring of the bordered range. -/
def onBorderRing (c : Coord) : Prop :=
  inBorderedRange c ∧ (c.1 = -1 ∨ c.1 = columns ∨ c.2 = -1 ∨ c.2 = rows)

instance (c : Coord) : Decidable (onBorderRing c) := by
  unfold onBorderRing; infer_instance

/-- The coordinate is an interior cell of the gradient band: the rows from
the end of the dense top third down to one quarter of the way up from the
bottom (spec section 4.2). -/
def inGradientBand (c : Coord) : Prop :=
  0 ≤ c.1 ∧ c.1 < columns ∧ rows / 3 ≤ c.2 ∧ c.2 < rows - rows / 4

instance (c : Coord) : Decidable (inGradientBand c) := by
  unfold inGradientBand; infer_instance

/-- Color chosen from the fixed palette, mirroring `random.choice`; the random
draw is the index `n`. -/
def paletteColor (n : Nat) : Nat × Nat × Nat :=
  brick_colors.getD (n % brick_colors.length) (0, 0, 0)

/-- Modelled from the spec: `make_matrix` (src/game.py lines 239-251) raises
`NotImplementedError`, so its body is missing; this follows spec section 4.2
(Grid Generator) and the docstring.  Randomness is passed in explicitly:
`fill c` is the random draw deciding whether gradient-band cell `c` gets a
block, and `pick c` is the random palette index for a block placed at `c`.
Every coordinate of the bordered range is mapped: the outer ring to border
blocks, the dense top third to destructible blocks, the gradient band to a
block or empty depending on the draw, and the clear band to empty. -/
def make_matrix (fill : Coord → Bool) (pick : Coord → Nat) : Matrix :=
  fun c =>
    if inBorderedRange c then
      if onBorderRing c then
        some Cell.border
      else if c.2 < rows / 3 then
        some (Cell.brick (paletteColor (pick c)))
      else if c.2 < rows - rows / 4 then
        if fill c then some (Cell.brick (paletteColor (pick c)))
        else some Cell.empty
      else
        some Cell.empty
    else
      none

/-- The `GameState` dataclass of src/game.py (lines 253-260). -/
structure GameState where
  matrix : Matrix
  frame_count : Nat := 0
  paddle_pos : Int := (columns - paddle_width) / 2
  ball_x : Int := columns / 2
  ball_y : Int := rows - 2
  ball_direction : Direction := Direction.UP_RIGHT

/-- True when coordinate `c` lies inside the paddle's rectangle, whose left
edge is `paddle_pos` on the bottom interior rows (spec section 3). -/
def onPaddle (paddle_pos : Int) (c : Coord) : Bool :=
  decide (rows - paddle_height ≤ c.2) && decide (c.2 < rows)
    && decide (paddle_pos ≤ c.1) && decide (c.1 < paddle_pos + paddle_width)

/-- Occupancy of a single cell (spec section 4.3 step 2b): occupied when it
holds any block, or, only while the ball is descending, when it coincides
with the paddle.  Looking up a coordinate outside the matrix's key set
fails (`none`), as a dict lookup would in Python. -/
def occupied (m : Matrix) (paddle_pos : Int) (down : Bool) (c : Coord) :
    Option Bool :=
  (m c).map (fun cell => cellBlocks cell || (down && onPaddle paddle_pos c))

/-- Removal of a destructible block (spec section 4.3 step 2d): a brick at
the coordinate becomes empty; border blocks are never removed. -/
def remove_block (m : Matrix) (c : Coord) : Matrix :=
  fun c2 =>
    if c2 = c then
      match m c with
      | some (Cell.brick _) => some Cell.empty
      | v => v
    else m c2

/-- Modelled from the spec: `GameState.move_ball` (src/game.py lines 274-293)
raises `NotImplementedError`, so its body is missing; this follows spec
section 4.3 step 2.  The three adjacent cells are looked up; for UP and DOWN
only the front cell is behaviorally meaningful, so the left/right entries are
neither inspected nor removed (spec section 4.3 edge cases).  The heading is
reflected, occupied destructible cells are cleared, and the ball advances one
step along the new heading.  Fails (`none`) only if an occupancy lookup falls
outside the matrix. -/
def GameState.move_ball (s : GameState) : Option GameState := do
  let a := s.ball_direction.get_adjacent_coords s.ball_x s.ball_y
  let lc := a.1
  let fc := a.2.1
  let rc := a.2.2
  let vertical := s.ball_direction == Direction.UP
    || s.ball_direction == Direction.DOWN
  let down := s.ball_direction.is_down
  let occF ← occupied s.matrix s.paddle_pos down fc
  let occL ← if vertical then pure false
    else occupied s.matrix s.paddle_pos down lc
  let occR ← if vertical then pure false
    else occupied s.matrix s.paddle_pos down rc
  let newDir := s.ball_direction.new_direction occL occF occR
  let m1 := if occL then remove_block s.matrix lc else s.matrix
  let m2 := if occF then remove_block m1 fc else m1
  let m3 := if occR then remove_block m2 rc else m2
  let d := newDir.delta
  pure { s with
    matrix := m3
    ball_x := s.ball_x + d.1
    ball_y := s.ball_y + d.2
    ball_direction := newDir }

/-- Clamp of the paddle position into `[0, columns - paddle_width]`
(spec section 3: movement requests past the edge are clamped). -/
def clampPaddle (p : Int) : Int :=
  max 0 (min p (columns - paddle_width))

/-- Modelled from the spec: `GameState.update` (src/game.py lines 262-272)
raises `NotImplementedError`, so its body is missing; this follows spec
section 4.3.  The input collaborator's three per-frame signals (`left`,
`right`, `quit_req`) are passed in explicitly.  Paddle movement is clamped;
the ball advances only on frames where `frame_count` is a multiple of
`ball_slowness`; the returned boolean is true when termination is requested,
either by the quit signal or by the ball being lost below the paddle row
(the terminate-on-loss policy of spec section 4.3 step 2f).  Fails (`none`)
only if an occupancy lookup inside `move_ball` falls outside the matrix. -/
def GameState.update (s : GameState) (left right quit_req : Bool) :
    Option (Bool × GameState) := do
  let step : Int := if left then -1 else 0
  let step := step + (if right then 1 else 0)
  let s1 := { s with paddle_pos := clampPaddle (s.paddle_pos + step) }
  let s2 ← if s1.frame_count % ball_slowness == 0 then s1.move_ball
    else pure s1
  let lost := decide (rows - paddle_height < s2.ball_y)
  pure (quit_req || lost, { s2 with frame_count := s2.frame_count + 1 })

/-- The ball's position is a valid interior coordinate (spec sections 3
and 7): lookahead cells of such a position stay inside the bordered range. -/
def ballInterior (s : GameState) : Prop :=
  0 ≤ s.ball_x ∧ s.ball_x < columns ∧ 0 ≤ s.ball_y ∧ s.ball_y < rows

/-- The matrix assigns a content to every coordinate of the bordered range
(spec section 3: the grid is a total mapping over the bordered range). -/
def matrixTotal (m : Matrix) : Prop :=
  ∀ c : Coord, inBorderedRange c → (m c).isSome

instance (s : GameState) : Decidable (ballInterior s) := by
  unfold ballInterior; infer_instance

/-- The direction points up or down with no horizontal component. -/
def isVertical (d : Direction) : Bool :=
  d == Direction.UP || d == Direction.DOWN

/-- Helper: every matrix produced by `make_matrix` is total over the
bordered range, whatever the random draws. -/
theorem make_matrix_total (fill : Coord → Bool) (pick : Coord → Nat) :
    matrixTotal (make_matrix fill pick) := by
  intro c hc
  unfold make_matrix
  split_ifs <;> simp_all

/-- Helper: lookahead cells of a ball at a valid interior coordinate lie in
the bordered range. -/
theorem adjacent_in_bordered (d : Direction) (x y : Int)
    (hx0 : 0 ≤ x) (hx1 : x < columns) (hy0 : 0 ≤ y) (hy1 : y < rows) :
    inBorderedRange (d.get_adjacent_coords x y).1 ∧
    inBorderedRange (d.get_adjacent_coords x y).2.1 ∧
    inBorderedRange (d.get_adjacent_coords x y).2.2 := by
  simp only [columns, rows] at hx1 hy1
  cases d <;>
    simp only [Direction.get_adjacent_coords, inBorderedRange, columns, rows,
      if_pos, if_neg, beq_iff_eq, reduceCtorEq, if_false, if_true] <;>
    norm_num <;> omega

/-- Helper: `move_ball` succeeds whenever the matrix is total over the
bordered range and the ball sits at a valid interior coordinate. -/
theorem move_ball_isSome (s : GameState) (hm : matrixTotal s.matrix)
    (hb : ballInterior s) : (GameState.move_ball s).isSome := by
  obtain ⟨hx0, hx1, hy0, hy1⟩ := hb
  obtain ⟨hL, hF, hR⟩ :=
    adjacent_in_bordered s.ball_direction s.ball_x s.ball_y hx0 hx1 hy0 hy1
  obtain ⟨cL, hcL⟩ := Option.isSome_iff_exists.mp (hm _ hL)
  obtain ⟨cF, hcF⟩ := Option.isSome_iff_exists.mp (hm _ hF)
  obtain ⟨cR, hcR⟩ := Option.isSome_iff_exists.mp (hm _ hR)
  unfold GameState.move_ball
  simp only [occupied, hcL, hcF, hcR, Option.map_some, Option.bind_eq_bind,
    Option.some_bind]
  split_ifs <;> simp

/-- Helper: a bind of options is defined when both stages are. -/
theorem bind_isSome {α β : Type} {o : Option α} {f : α → Option β}
    (h1 : o.isSome) (h2 : ∀ a : α, (f a).isSome) : (o.bind f).isSome := by
  obtain ⟨a, ha⟩ := Option.isSome_iff_exists.mp h1
  rw [ha, Option.some_bind]
  exact h2 a

/-- C1: the claim states that reflecting DOWN_RIGHT with on_left=False,
in_front=True, on_right=True returns UP_LEFT; on the code of
`new_direction` (src/game.py line 176) this combination returns UP_RIGHT,
so the claim is false. -/
theorem new_direction_down_right_front_right_ne_up_left :
    Direction.new_direction Direction.DOWN_RIGHT false true true
      ≠ Direction.UP_LEFT := by decide

/-- C1 (amended): reflecting DOWN_RIGHT with on_left=False, in_front=True,
on_right=True via `new_direction` returns UP_RIGHT. -/
theorem new_direction_down_right_front_right_eq_up_right :
    Direction.new_direction Direction.DOWN_RIGHT false true true
      = Direction.UP_RIGHT := by decide

/-- C2: for every direction and every integer pair, the middle ("front")
coordinate of the triple returned by `get_adjacent_coords x y` equals
`(x + dx, y + dy)` where `(dx, dy)` is `delta`. -/
theorem get_adjacent_coords_front_agrees_with_delta (d : Direction)
    (x y : Int) :
    (d.get_adjacent_coords x y).2.1 = (x + d.delta.1, y + d.delta.2) := by
  cases d <;>
    simp [Direction.get_adjacent_coords, Direction.delta, Prod.ext_iff] <;>
    omega

/-- C3: for the headings UP and DOWN, `new_direction` depends only on the
`in_front` argument: UP reflects to DOWN and DOWN to UP exactly when
`in_front` holds, regardless of `on_left` and `on_right`. -/
theorem new_direction_vertical_ignores_sides :
    ∀ on_left on_right : Bool,
      Direction.new_direction Direction.UP on_left true on_right
          = Direction.DOWN ∧
      Direction.new_direction Direction.UP on_left false on_right
          = Direction.UP ∧
      Direction.new_direction Direction.DOWN on_left true on_right
          = Direction.UP ∧
      Direction.new_direction Direction.DOWN on_left false on_right
          = Direction.DOWN := by decide

/-- C4: for every direction, `new_direction` with all three occupancy
booleans false returns the direction unchanged. -/
theorem new_direction_all_clear_id :
    ∀ d : Direction, d.new_direction false false false = d := by decide

/-- C5: `delta` returns exactly the unit steps UP=(0,-1), UP_RIGHT=(1,-1),
DOWN_RIGHT=(1,1), DOWN=(0,1), DOWN_LEFT=(-1,1), UP_LEFT=(-1,-1); the
vertical component is never 0. -/
theorem delta_values :
    Direction.delta Direction.UP = (0, -1) ∧
    Direction.delta Direction.UP_RIGHT = (1, -1) ∧
    Direction.delta Direction.DOWN_RIGHT = (1, 1) ∧
    Direction.delta Direction.DOWN = (0, 1) ∧
    Direction.delta Direction.DOWN_LEFT = (-1, 1) ∧
    Direction.delta Direction.UP_LEFT = (-1, -1) ∧
    ∀ d : Direction, (Direction.delta d).2 ≠ 0 := by decide

/-- C6: every coordinate on the outer border ring of a matrix produced by
`make_matrix` holds a border block, whatever the random draws; and outside
the gradient band, whether a cell blocks the ball does not depend on the
random draws at all (only gradient-band fill and block colors do). -/
theorem make_matrix_border_invariant (fill fill2 : Coord → Bool)
    (pick pick2 : Coord → Nat) (c : Coord) :
    (onBorderRing c → make_matrix fill pick c = some Cell.border) ∧
    (¬ inGradientBand c →
      Option.map cellBlocks (make_matrix fill pick c)
        = Option.map cellBlocks (make_matrix fill2 pick2 c)) := by
  constructor
  · intro h
    unfold make_matrix
    rw [if_pos h.1, if_pos h]
  · intro h
    unfold make_matrix
    by_cases hb : inBorderedRange c
    · by_cases hr : onBorderRing c
      · simp only [if_pos hb, if_pos hr]
      · simp only [if_pos hb, if_neg hr]
        by_cases h3 : c.2 < rows / 3
        · simp only [if_pos h3]
          simp [cellBlocks]
        · have h4 : ¬ (c.2 < rows - rows / 4) := by
            unfold inGradientBand at h
            unfold onBorderRing at hr
            unfold inBorderedRange at hb hr
            simp only [rows, columns] at *
            push_neg at h hr
            omega
          simp only [if_neg h3, if_neg h4]
    · simp only [if_neg hb]

/-- Witness for C6 at concrete inputs: the border corner cell and a
dense-band cell under two different random sources. -/
theorem make_matrix_border_invariant_witness :
    (make_matrix (fun _ => true) (fun _ => 0) (-1, 5) = some Cell.border) ∧
    (Option.map cellBlocks (make_matrix (fun _ => true) (fun _ => 0) (20, 5))
      = Option.map cellBlocks
          (make_matrix (fun _ => false) (fun _ => 1) (20, 5))) :=
  ⟨(make_matrix_border_invariant (fun _ => true) (fun _ => false)
      (fun _ => 0) (fun _ => 1) (-1, 5)).1 (by decide),
   (make_matrix_border_invariant (fun _ => true) (fun _ => false)
      (fun _ => 0) (fun _ => 1) (20, 5)).2 (by decide)⟩

/-- C8: `is_down` returns true exactly for DOWN_LEFT, DOWN and DOWN_RIGHT,
and false for UP, UP_RIGHT and UP_LEFT. -/
theorem is_down_values :
    Direction.is_down Direction.DOWN_LEFT = true ∧
    Direction.is_down Direction.DOWN = true ∧
    Direction.is_down Direction.DOWN_RIGHT = true ∧
    Direction.is_down Direction.UP = false ∧
    Direction.is_down Direction.UP_RIGHT = false ∧
    Direction.is_down Direction.UP_LEFT = false := by decide

/-- C9: each of the three coordinates returned by `get_adjacent_coords x y`
differs from `(x, y)` by at most 1 in each axis; consequently, for a ball at
a valid interior position all three lookahead cells lie within the bordered
grid range. -/
theorem get_adjacent_coords_within_one (d : Direction) (x y : Int) :
    (((d.get_adjacent_coords x y).1.1 - x).natAbs ≤ 1 ∧
      ((d.get_adjacent_coords x y).1.2 - y).natAbs ≤ 1) ∧
    (((d.get_adjacent_coords x y).2.1.1 - x).natAbs ≤ 1 ∧
      ((d.get_adjacent_coords x y).2.1.2 - y).natAbs ≤ 1) ∧
    (((d.get_adjacent_coords x y).2.2.1 - x).natAbs ≤ 1 ∧
      ((d.get_adjacent_coords x y).2.2.2 - y).natAbs ≤ 1) ∧
    (0 ≤ x ∧ x < columns ∧ 0 ≤ y ∧ y < rows →
      inBorderedRange (d.get_adjacent_coords x y).1 ∧
      inBorderedRange (d.get_adjacent_coords x y).2.1 ∧
      inBorderedRange (d.get_adjacent_coords x y).2.2) := by
  refine ⟨?_, ?_, ?_, fun h => adjacent_in_bordered d x y h.1 h.2.1 h.2.2.1 h.2.2.2⟩ <;>
    cases d <;>
    simp [Direction.get_adjacent_coords] <;>
    omega

/-- Witness for C9 at a concrete interior position and heading. -/
theorem get_adjacent_coords_within_one_witness :
    (0 ≤ (5 : Int) ∧ (5 : Int) < columns ∧ 0 ≤ (5 : Int) ∧
      (5 : Int) < rows) ∧
    inBorderedRange ((Direction.UP_RIGHT).get_adjacent_coords 5 5).2.1 :=
  ⟨⟨by decide, by decide, by decide, by decide⟩,
   ((get_adjacent_coords_within_one Direction.UP_RIGHT 5 5).2.2.2
      ⟨by decide, by decide, by decide, by decide⟩).2.1⟩

/-- C7: `update` always completes normally and returns its termination
boolean, for every game state satisfying the data-model invariants (matrix
total over the bordered range, ball at a valid interior coordinate) and every
combination of input signals; the only failure mode of the model, an
occupancy lookup outside the matrix, never happens. -/
theorem update_isSome (s : GameState) (left right quit_req : Bool)
    (hm : matrixTotal s.matrix) (hb : ballInterior s) :
    (GameState.update s left right quit_req).isSome := by
  simp only [GameState.update, Option.bind_eq_bind]
  split_ifs <;>
    first
      | exact bind_isSome (move_ball_isSome _ hm hb)
          (fun a => Option.isSome_some)
      | exact bind_isSome Option.isSome_some (fun a => Option.isSome_some)

/-- Witness for C7: one update step from the initial state built on a
concretely generated matrix succeeds. -/
theorem update_isSome_witness :
    (GameState.update
        { matrix := make_matrix (fun _ => true) (fun _ => 0) }
        false false false).isSome :=
  update_isSome { matrix := make_matrix (fun _ => true) (fun _ => 0) }
    false false false (make_matrix_total (fun _ => true) (fun _ => 0))
    (by decide)

/-- C10: `new_direction` preserves the heading class for every occupancy
combination: vertical headings map to vertical headings and diagonal
headings to diagonal headings. -/
theorem new_direction_preserves_class :
    ∀ (d : Direction) (on_left in_front on_right : Bool),
      isVertical (d.new_direction on_left in_front on_right)
        = isVertical d := by decide

end BrickBreaker
